import Mathlib

/-
  Verification of the autonomous task-orchestration core of the repository.

  The embedding follows the source files:
  - examples/master-control-agent/src/core/master-agent.ts
    (classes MasterControlAgent and TaskQueue),
  - the subagent deployer module (class SubagentDeployer),
  - the state manager module (class StateManager), which builds the runtime
    metrics object.

  Conventions of the shallow embedding:
  - JS numbers are Int (Nat where the source only ever stores timestamps or
    counts that start at 0 and only grow);
  - Date.now() is an explicit "now" parameter to every operation that reads it;
  - nanoid() / crypto.randomUUID() fresh-id generation is an explicit counter
    (nextId) carried in the state, producing Nat ids;
  - the SQLite table cf_agents_queues is a list of rows in insertion (rowid)
    order; a row carries the columns the source writes: id, type, priority,
    payload (the serialized Task, kept here in parsed form), status,
    created_at.  ORDER BY priority DESC, created_at ASC is a stable insertion
    sort on the filtered rows (ties beyond both sort keys keep rowid order);
  - the key-value store entries "dlq:<id>" form a list keyed by taskId, where
    put overwrites the entry with the same key;
  - thrown exceptions are Except.error carrying the message string;
  - opaque JSON payloads are strings.
-/

namespace MCA

/-- Status values of a Task in the source: "pending" | "in_progress" |
"completed" | "failed". -/
inductive TStatus where
  | pending
  | in_progress
  | completed
  | failed
deriving DecidableEq

/-- Task record from master-agent.ts (the TaskQueue variant, which carries the
optional dependencies field).  The payload field is the opaque task payload. -/
structure Task where
  id : Nat
  type : String
  description : String
  priority : Int
  payload : String
  status : TStatus
  createdAt : Nat
  startedAt : Option Nat
  completedAt : Option Nat
  result : Option String
  error : Option String
  retryCount : Int
  maxRetries : Int
  dependencies : Option (List Nat)
deriving DecidableEq

/-- Row of the SQLite table cf_agents_queues as written by TaskQueue.enqueue:
columns id, type, priority, payload (JSON of the Task, kept parsed), status,
created_at. -/
structure Row where
  idCol : Nat
  typeCol : String
  priorityCol : Int
  payload : Task
  statusCol : TStatus
  createdAtCol : Nat
deriving DecidableEq

/-- Dead-letter entry as built by TaskQueue.moveToDLQ: the task snapshot taken
at the start of fail, the failure reason, and the archive timestamp. -/
structure DeadLetterEntry where
  taskId : Nat
  task : Task
  error : String
  timestamp : Nat
deriving DecidableEq

/-- State owned by a TaskQueue instance: the SQLite rows in insertion order,
the "dlq:" entries of the key-value store, and the fresh-id counter standing
in for nanoid(). -/
structure QueueState where
  rows : List Row
  dlq : List DeadLetterEntry
  nextId : Nat
deriving DecidableEq

/-- Input of TaskQueue.enqueue: a Task without id, status, createdAt and
retryCount.  maxRetries is Option Int because call sites in the source omit
it (handleCommand passes only type, description, priority, payload). -/
structure TaskSpec where
  type : String
  description : String
  priority : Int
  payload : String
  maxRetries : Option Int
  dependencies : Option (List Nat)
deriving DecidableEq

/-- JS expression "x || d" on a number that may be undefined: undefined and 0
are falsy, every other integer (negative ones included) is truthy. -/
def jsOrDefault (x : Option Int) (d : Int) : Int :=
  match x with
  | none => d
  | some v => if v = 0 then d else v

/-- JS truthiness test "!x" on an optional number: true when the value is
undefined or 0. -/
def jsFalsy : Option Nat → Bool
  | none => true
  | some v => v = 0

namespace TaskQueue

/-- TaskQueue.enqueue: builds the Task (fresh id, status pending,
createdAt now, retryCount 0, maxRetries defaulted by "taskData.maxRetries
|| 3") and inserts one row into cf_agents_queues.  The source performs no
validation of the specification. -/
def enqueue (st : QueueState) (spec : TaskSpec) (now : Nat) : Task × QueueState :=
  let task : Task :=
    { id := st.nextId
      type := spec.type
      description := spec.description
      priority := spec.priority
      payload := spec.payload
      status := TStatus.pending
      createdAt := now
      startedAt := none
      completedAt := none
      result := none
      error := none
      retryCount := 0
      maxRetries := jsOrDefault spec.maxRetries 3
      dependencies := spec.dependencies }
  let row : Row :=
    { idCol := task.id
      typeCol := task.type
      priorityCol := task.priority
      payload := task
      statusCol := task.status
      createdAtCol := task.createdAt }
  (task, { st with rows := st.rows ++ [row], nextId := st.nextId + 1 })

/-- Comparison realizing ORDER BY priority DESC, created_at ASC on rows. -/
def rowLE (a b : Row) : Bool :=
  (b.priorityCol < a.priorityCol) ||
    (a.priorityCol = b.priorityCol && a.createdAtCol ≤ b.createdAtCol)

/-- Propositional form of rowLE, used by the stable sort. -/
def rowOrd (a b : Row) : Prop := rowLE a b = true

instance : DecidableRel rowOrd := fun a b => inferInstanceAs (Decidable (rowLE a b = true))

instance : IsTotal Row rowOrd := by
  constructor
  intro a b
  simp only [rowOrd, rowLE, Bool.or_eq_true, Bool.and_eq_true, decide_eq_true_eq]
  omega

instance : IsTrans Row rowOrd := by
  constructor
  intro a b c
  simp only [rowOrd, rowLE, Bool.or_eq_true, Bool.and_eq_true, decide_eq_true_eq]
  omega

/-- TaskQueue.getPending: SELECT payload FROM cf_agents_queues WHERE status =
'pending' ORDER BY priority DESC, created_at ASC LIMIT limit, with parsed
payloads returned. -/
def getPending (st : QueueState) (limit : Nat) : List Task :=
  ((((st.rows.filter (fun r => r.statusCol = TStatus.pending)).insertionSort
      rowOrd)).take limit).map (·.payload)

/-- TaskQueue.getTask: SELECT payload FROM cf_agents_queues WHERE id = ?,
returning the parsed payload of the first (with the primary key: only)
matching row, or null. -/
def getTask (st : QueueState) (id : Nat) : Option Task :=
  (st.rows.find? (fun r => r.idCol = id)).map (·.payload)

/-- Patch argument of TaskQueue.updateStatus (the data parameter merged into
the task by Object.assign); the source only ever passes result or error. -/
structure Patch where
  result : Option String := none
  error : Option String := none

/-- Object.assign(task, data) restricted to the fields the source passes. -/
def applyPatch (t : Task) (p : Patch) : Task :=
  let t := match p.result with
           | some r => { t with result := some r }
           | none => t
  match p.error with
  | some e => { t with error := some e }
  | none => t

/-- UPDATE cf_agents_queues SET payload = ?, status = ? WHERE id = ?. -/
def setRow (rows : List Row) (id : Nat) (t : Task) (s : TStatus) : List Row :=
  rows.map (fun r => if r.idCol = id then { r with payload := t, statusCol := s } else r)

/-- TaskQueue.updateStatus: loads the task (throwing "Task not found" when the
id is absent), sets the status, stamps startedAt on the first move to
in_progress, else stamps completedAt on the first move to completed or failed,
merges the patch, and writes payload and status back. -/
def updateStatus (st : QueueState) (id : Nat) (status : TStatus) (p : Patch)
    (now : Nat) : Except String QueueState :=
  match getTask st id with
  | none => Except.error "Task not found"
  | some task =>
    let task := { task with status := status }
    let task :=
      if status = TStatus.in_progress && jsFalsy task.startedAt then
        { task with startedAt := some now }
      else if (status = TStatus.completed || status = TStatus.failed) &&
          jsFalsy task.completedAt then
        { task with completedAt := some now }
      else task
    let task := applyPatch task p
    Except.ok { st with rows := setRow st.rows id task status }

/-- TaskQueue.complete: updateStatus to completed with the result merged. -/
def complete (st : QueueState) (id : Nat) (result : String) (now : Nat) :
    Except String QueueState :=
  updateStatus st id TStatus.completed { result := some result } now

/-- Storage.put of a "dlq:<taskId>" entry: overwrites the entry with the same
key, otherwise appends. -/
def dlqPut (l : List DeadLetterEntry) (e : DeadLetterEntry) : List DeadLetterEntry :=
  if l.any (fun x => x.taskId = e.taskId) then
    l.map (fun x => if x.taskId = e.taskId then e else x)
  else
    l ++ [e]

/-- TaskQueue.moveToDLQ: stores the dead-letter record for the task under key
"dlq:<task.id>". -/
def moveToDLQ (st : QueueState) (task : Task) (error : String) (now : Nat) :
    QueueState :=
  let dlqEntry : DeadLetterEntry :=
    { taskId := task.id, task := task, error := error, timestamp := now }
  { st with dlq := dlqPut st.dlq dlqEntry }

/-- TaskQueue.fail: loads the task (silently returning when absent); when
retryCount < maxRetries it increments retryCount, sets status and the status
column back to pending and records the error; otherwise it marks the task
failed through updateStatus and moves the pre-update snapshot to the
dead-letter queue. -/
def fail (st : QueueState) (id : Nat) (error : String) (now : Nat) : QueueState :=
  match getTask st id with
  | none => st
  | some task =>
    if task.retryCount < task.maxRetries then
      let task := { task with
        retryCount := task.retryCount + 1
        status := TStatus.pending
        error := some error }
      { st with rows := setRow st.rows id task TStatus.pending }
    else
      let st' :=
        match updateStatus st id TStatus.failed { error := some error } now with
        | Except.ok s => s
        | Except.error _ => st
      moveToDLQ st' task error now

/-- TaskQueue.areDependenciesSatisfied: true when the dependency list is
absent or empty, otherwise every listed id must resolve to a task whose
status is completed; an unresolved id yields false. -/
def areDependenciesSatisfied (st : QueueState) (task : Task) : Bool :=
  match task.dependencies with
  | none => true
  | some deps =>
    if deps.length = 0 then true
    else deps.all (fun depId =>
      match getTask st depId with
      | none => false
      | some depTask => depTask.status = TStatus.completed)

end TaskQueue

/-- Subagent status values: "active" | "idle" | "error". -/
inductive SStatus where
  | active
  | idle
  | error
deriving DecidableEq

/-- Subagent kinds: "worker" | "specialist" | "integration" | "monitor". -/
inductive SType where
  | worker
  | specialist
  | integrationKind
  | monitor
deriving DecidableEq

/-- SubagentInfo record from master-agent.ts. -/
structure SubagentInfo where
  id : Nat
  type : SType
  name : String
  status : SStatus
  currentTask : Option Nat
  deployedAt : Nat
  lastHeartbeat : Nat
deriving DecidableEq

/-- SubagentConfig fields used by SubagentDeployer.create (domain and
resources are never read by the deployer's logic). -/
structure SubagentConfig where
  type : SType
  name : String

/-- State of a SubagentDeployer: the activeSubagents Map in insertion order
(JS Map iteration order), the fresh-id counter standing in for
crypto.randomUUID(), and config.maxSubagents. -/
structure DeployerState where
  activeSubagents : List SubagentInfo
  nextId : Nat
  maxSubagents : Nat
deriving DecidableEq

namespace SubagentDeployer

/-- SubagentDeployer.create: a fresh subagent with status active,
deployedAt = lastHeartbeat = now and no current task, appended to the map. -/
def create (st : DeployerState) (config : SubagentConfig) (now : Nat) :
    SubagentInfo × DeployerState :=
  let subagent : SubagentInfo :=
    { id := st.nextId
      type := config.type
      name := config.name
      status := SStatus.active
      currentTask := none
      deployedAt := now
      lastHeartbeat := now }
  (subagent,
    { st with activeSubagents := st.activeSubagents ++ [subagent],
              nextId := st.nextId + 1 })

/-- Scan of SubagentDeployer.allocate over this.activeSubagents.values():
claims the first idle subagent in iteration order, setting status active and
currentTask to the task id, and returns it with the updated list. -/
def claimFirstIdle (taskId : Nat) :
    List SubagentInfo → Option (SubagentInfo × List SubagentInfo)
  | [] => none
  | s :: rest =>
    if s.status = SStatus.idle then
      let s' := { s with status := SStatus.active, currentTask := some taskId }
      some (s', s' :: rest)
    else
      match claimFirstIdle taskId rest with
      | none => none
      | some (a, rest') => some (a, s :: rest')

/-- SubagentDeployer.allocate: claims the first idle subagent; when none is
idle and the count is below config.maxSubagents, creates a fresh worker named
"worker-<now>"; otherwise throws. -/
def allocate (st : DeployerState) (task : Task) (now : Nat) :
    Except String (SubagentInfo × DeployerState) :=
  match claimFirstIdle task.id st.activeSubagents with
  | some (a, l) => Except.ok (a, { st with activeSubagents := l })
  | none =>
    if st.activeSubagents.length < st.maxSubagents then
      Except.ok (create st { type := SType.worker, name := "worker-" ++ toString now } now)
    else
      Except.error "No available subagents and at capacity"

/-- SubagentDeployer.release: the subagent with the given id (when present)
returns to idle and its currentTask is cleared. -/
def release (st : DeployerState) (subagentId : Nat) : DeployerState :=
  { st with activeSubagents := st.activeSubagents.map (fun s =>
      if s.id = subagentId then
        { s with status := SStatus.idle, currentTask := none }
      else s) }

/-- Heartbeat timeout of SubagentDeployer.healthCheck: 5 minutes. -/
def healthTimeout : Nat := 5 * 60 * 1000

/-- SubagentDeployer.healthCheck: every subagent whose last heartbeat is
older than the timeout is marked error.  The source applies this to every
entry of the map, with no condition on the current status. -/
def healthCheck (st : DeployerState) (now : Nat) : DeployerState :=
  { st with activeSubagents := st.activeSubagents.map (fun s =>
      if healthTimeout < now - s.lastHeartbeat then
        { s with status := SStatus.error }
      else s) }

/-- SubagentDeployer.heartbeat: updates lastHeartbeat of the subagent with
the given id and, when its status was error, restores active. -/
def heartbeat (st : DeployerState) (subagentId : Nat) (now : Nat) : DeployerState :=
  { st with activeSubagents := st.activeSubagents.map (fun s =>
      if s.id = subagentId then
        let s := { s with lastHeartbeat := now }
        if s.status = SStatus.error then { s with status := SStatus.active } else s
      else s) }

end SubagentDeployer

/-- Runtime shape of AgentState.metrics as created by
StateManager.createDefaultState and mutated by StateManager (tasksCompleted,
tasksFailed, tasksActive, subagentsActive, lastHealthCheck).  The AgentState
interface declared in master-agent.ts instead merges two of the fields into
one field named tasksFailedtasksActive; the running objects come from
StateManager, so the embedding follows the runtime shape. -/
structure Metrics where
  tasksCompleted : Int
  tasksFailed : Int
  tasksActive : Int
  subagentsActive : Int
  lastHealthCheck : Nat
deriving DecidableEq

namespace MasterControlAgent

/-- MasterControlAgent.canProcessTask: false when state.metrics.tasksActive
has reached config.maxConcurrentTasks, true otherwise.  The task argument is
not inspected: the commented dependency check in the source has no code. -/
def canProcessTask (m : Metrics) (maxConcurrentTasks : Int) (_task : Task) : Bool :=
  if maxConcurrentTasks ≤ m.tasksActive then false else true

/-- Resource heuristic inside MasterControlAgent.allocateResources: a task
needs a subagent when its type is "complex" or its priority exceeds 7. -/
def needsSubagent (t : Task) : Bool :=
  t.type = "complex" || (7 : Int) < t.priority

/-- Dispatch loop of MasterControlAgent.processAutonomousTasks over the list
returned by getPending: a task failing canProcessTask is skipped; a task that
needs a subagent first allocates one, and a thrown capacity error aborts the
whole loop (it propagates to the catch of the tick); a dispatched task only
reaches the executeTask stub, which changes nothing.  Returns the ids of the
dispatched tasks and the deployer state. -/
def tickLoop (m : Metrics) (cap : Int) (now : Nat) :
    List Task → DeployerState → List Nat × DeployerState
  | [], dep => ([], dep)
  | t :: rest, dep =>
    if canProcessTask m cap t then
      if needsSubagent t then
        match SubagentDeployer.allocate dep t now with
        | Except.ok (_, dep') =>
          let r := tickLoop m cap now rest dep'
          (t.id :: r.1, r.2)
        | Except.error _ => ([], dep)
      else
        let r := tickLoop m cap now rest dep
        (t.id :: r.1, r.2)
    else
      tickLoop m cap now rest dep

/-- MasterControlAgent.processAutonomousTasks: pulls
getPending(config.maxConcurrentTasks) — the full cap, not the remaining
capacity — and runs the dispatch loop over the candidates. -/
def processAutonomousTasks (qst : QueueState) (m : Metrics) (cap : Nat)
    (dep : DeployerState) (now : Nat) : List Nat × DeployerState :=
  tickLoop m (cap : Int) now (TaskQueue.getPending qst cap) dep

/-- Decision produced by DecisionEngine.analyze, reduced to the fields the
routing of executeCommand reads. -/
structure Decision where
  category : String
  action : String

/-- MasterControlAgent.executeCommand: marks the task in_progress, analyzes
the command through the decision oracle, routes to a category handler and
completes the task; every exception of the try block — an oracle failure as
much as a handler failure — lands in the same catch, which routes the task
into TaskQueue.fail with the error message.  The oracle outcome and the
handler are explicit parameters. -/
def executeCommand (st : QueueState) (taskId : Nat)
    (analyze : Except String Decision)
    (handler : Decision → Except String String) (now : Nat) : QueueState :=
  match TaskQueue.updateStatus st taskId TStatus.in_progress {} now with
  | Except.error e => TaskQueue.fail st taskId e now
  | Except.ok st1 =>
    match analyze with
    | Except.error e => TaskQueue.fail st1 taskId e now
    | Except.ok decision =>
      match handler decision with
      | Except.error e => TaskQueue.fail st1 taskId e now
      | Except.ok result =>
        match TaskQueue.complete st1 taskId result now with
        | Except.error e => TaskQueue.fail st1 taskId e now
        | Except.ok st2 => st2

end MasterControlAgent

/-- Well-formedness of a row: the id, priority, status and created_at columns
agree with the serialized task of the payload column.  Every row written by
the source satisfies this. -/
def WFrow (r : Row) : Prop :=
  r.idCol = r.payload.id ∧ r.statusCol = r.payload.status ∧
    r.priorityCol = r.payload.priority ∧ r.createdAtCol = r.payload.createdAt

instance : DecidablePred WFrow := fun r => by unfold WFrow; infer_instance

/-- Well-formedness of a queue state: all rows are well formed, the id column
is a primary key (no duplicates), and ids are below the fresh-id counter. -/
def WF (st : QueueState) : Prop :=
  (∀ r ∈ st.rows, WFrow r) ∧ (st.rows.map (·.idCol)).Nodup ∧
    (∀ r ∈ st.rows, r.idCol < st.nextId)

instance (st : QueueState) : Decidable (WF st) := by unfold WF; infer_instance

/-- Queue state with no rows, no dead letters and counter 0. -/
def emptyQueue : QueueState := { rows := [], dlq := [], nextId := 0 }

/-- Deployer with no subagents, counter 0 and the default cap of 50. -/
def emptyDeployer : DeployerState :=
  { activeSubagents := [], nextId := 0, maxSubagents := 50 }

/-
  Concrete scenario states used by the individual claims.
-/

/-- Specification of a task with maxRetries 2 (retry scenario). -/
def c1Spec : TaskSpec :=
  { type := "t", description := "d", priority := 5, payload := "p",
    maxRetries := some 2, dependencies := none }

/-- Task produced by enqueueing c1Spec into the empty queue at time 100. -/
def c1Task : Task := (TaskQueue.enqueue emptyQueue c1Spec 100).1

/-- Queue holding exactly the c1Spec task. -/
def c1St0 : QueueState := (TaskQueue.enqueue emptyQueue c1Spec 100).2

/-- Queue after the first failure of the c1 task. -/
def c1St1 : QueueState := TaskQueue.fail c1St0 0 "e1" 101

/-- Queue after the second failure of the c1 task. -/
def c1St2 : QueueState := TaskQueue.fail c1St1 0 "e2" 102

/-- Queue after the third failure of the c1 task. -/
def c1St3 : QueueState := TaskQueue.fail c1St2 0 "e3" 103

/-- Specification of a priority-5 task used to populate the scheduler
scenarios. -/
def c2Spec : TaskSpec :=
  { type := "t", description := "", priority := 5, payload := "",
    maxRetries := none, dependencies := none }

/-- Enqueue of n copies of c2Spec at increasing timestamps. -/
def enqueueN : Nat → QueueState → QueueState
  | 0, st => st
  | n + 1, st => enqueueN n (TaskQueue.enqueue st c2Spec (100 + n)).2

/-- Queue holding ten pending priority-5 tasks. -/
def c2St : QueueState := enqueueN 10 emptyQueue

/-- Metrics snapshot with tasksActive = 9 (one unit of remaining capacity
under a cap of 10). -/
def c2M : Metrics :=
  { tasksCompleted := 0, tasksFailed := 0, tasksActive := 9,
    subagentsActive := 0, lastHealthCheck := 0 }

/-- High-priority (9) task specification. -/
def c3SpecA : TaskSpec :=
  { type := "t", description := "A", priority := 9, payload := "",
    maxRetries := none, dependencies := none }

/-- Low-priority (3) task specification. -/
def c3SpecB : TaskSpec :=
  { type := "t", description := "B", priority := 3, payload := "",
    maxRetries := none, dependencies := none }

/-- Queue with the priority-9 task enqueued before the priority-3 task. -/
def c3AB : QueueState :=
  (TaskQueue.enqueue (TaskQueue.enqueue emptyQueue c3SpecA 100).2 c3SpecB 101).2

/-- Queue with the priority-3 task enqueued before the priority-9 task. -/
def c3BA : QueueState :=
  (TaskQueue.enqueue (TaskQueue.enqueue emptyQueue c3SpecB 100).2 c3SpecA 101).2

/-- Priority-5 task specification used twice for the FIFO tie-break. -/
def c3SpecEq : TaskSpec :=
  { type := "t", description := "X", priority := 5, payload := "",
    maxRetries := none, dependencies := none }

/-- Queue with two equal-priority tasks, X (id 0) enqueued before Y (id 1). -/
def c3XY : QueueState :=
  (TaskQueue.enqueue (TaskQueue.enqueue emptyQueue c3SpecEq 100).2 c3SpecEq 101).2

/-- Specification of the command task of the oracle-failure scenario. -/
def c4Spec : TaskSpec :=
  { type := "command", description := "d", priority := 5, payload := "c",
    maxRetries := none, dependencies := none }

/-- Task produced by enqueueing c4Spec at time 10. -/
def c4Task : Task := (TaskQueue.enqueue emptyQueue c4Spec 10).1

/-- Queue holding exactly the c4Spec task. -/
def c4St : QueueState := (TaskQueue.enqueue emptyQueue c4Spec 10).2

/-- Arbitrary task handed to the allocator (allocate reads only the id). -/
def c5Task : Task :=
  { id := 42, type := "complex", description := "", priority := 9, payload := "",
    status := TStatus.pending, createdAt := 0, startedAt := none,
    completedAt := none, result := none, error := none, retryCount := 0,
    maxRetries := 3, dependencies := none }

/-- Iterated allocation: none as soon as one allocate call throws. -/
def allocRepeat (t : Task) (now : Nat) : Nat → DeployerState → Option DeployerState
  | 0, st => some st
  | n + 1, st =>
    match SubagentDeployer.allocate st t now with
    | Except.ok (_, st') => allocRepeat t now n st'
    | Except.error _ => none

/-- Deployer that is saturated: one active subagent under a cap of one. -/
def c5Full : DeployerState :=
  { activeSubagents :=
      [{ id := 0, type := SType.worker, name := "w0", status := SStatus.active,
         currentTask := some 1, deployedAt := 0, lastHeartbeat := 0 }],
    nextId := 1, maxSubagents := 1 }

/-- Idle subagent whose heartbeat is stale at time 300001. -/
def c6Idle : SubagentInfo :=
  { id := 0, type := SType.worker, name := "w", status := SStatus.idle,
    currentTask := none, deployedAt := 0, lastHeartbeat := 0 }

/-- Deployer holding only the stale idle subagent. -/
def c6Dep : DeployerState :=
  { activeSubagents := [c6Idle], nextId := 1, maxSubagents := 50 }

/-- Active subagent with a current task and a stale heartbeat. -/
def c6Active : SubagentInfo :=
  { id := 1, type := SType.worker, name := "w1", status := SStatus.active,
    currentTask := some 5, deployedAt := 0, lastHeartbeat := 0 }

/-- Deployer holding only the stale active subagent. -/
def c6Dep2 : DeployerState :=
  { activeSubagents := [c6Active], nextId := 2, maxSubagents := 50 }

/-- Errored variant of the c6 subagent (as left by a health check). -/
def c6Err : SubagentInfo := { c6Active with status := SStatus.error }

/-- Deployer holding only the errored subagent. -/
def c6DepErr : DeployerState :=
  { activeSubagents := [c6Err], nextId := 2, maxSubagents := 50 }

/-- Specification of the dependency-free task A of the dependency scenario. -/
def c7SpecA : TaskSpec :=
  { type := "t", description := "A", priority := 5, payload := "",
    maxRetries := none, dependencies := none }

/-- Specification of task B, which depends on task 0 (task A). -/
def c7SpecB : TaskSpec :=
  { type := "t", description := "B", priority := 5, payload := "",
    maxRetries := none, dependencies := some [0] }

/-- Queue holding pending A (id 0) and pending B (id 1, depending on 0). -/
def c7St : QueueState :=
  (TaskQueue.enqueue (TaskQueue.enqueue emptyQueue c7SpecA 100).2 c7SpecB 101).2

/-- Metrics snapshot with no active tasks. -/
def c7M : Metrics :=
  { tasksCompleted := 0, tasksFailed := 0, tasksActive := 0,
    subagentsActive := 0, lastHealthCheck := 0 }

/-- Task specification violating both documented validity bounds:
maxRetries is negative and priority is outside [1,10]. -/
def c8Spec : TaskSpec :=
  { type := "x", description := "", priority := 0, payload := "",
    maxRetries := some (-1), dependencies := none }

/-- Task specification carrying an explicit maxRetries of 0. -/
def c10Spec : TaskSpec :=
  { type := "t", description := "", priority := 5, payload := "",
    maxRetries := some 0, dependencies := none }

/-- Queue holding exactly the c10Spec task. -/
def c10St0 : QueueState := (TaskQueue.enqueue emptyQueue c10Spec 100).2

/-- Queue after one failure of the c10 task. -/
def c10St1 : QueueState := TaskQueue.fail c10St0 0 "f1" 101

/-- Queue after two failures of the c10 task. -/
def c10St2 : QueueState := TaskQueue.fail c10St1 0 "f2" 102

/-- Queue after three failures of the c10 task. -/
def c10St3 : QueueState := TaskQueue.fail c10St2 0 "f3" 103

/-- Queue after four failures of the c10 task. -/
def c10St4 : QueueState := TaskQueue.fail c10St3 0 "f4" 104

/-
  Helper lemmas shared by the claim theorems.
-/

/-- Patching result or error fields leaves the status untouched. -/
theorem applyPatch_status (t : Task) (p : TaskQueue.Patch) :
    (TaskQueue.applyPatch t p).status = t.status := by
  unfold TaskQueue.applyPatch
  cases p.result <;> cases p.error <;> rfl

/-- Patching result or error fields leaves the retry counter untouched. -/
theorem applyPatch_retryCount (t : Task) (p : TaskQueue.Patch) :
    (TaskQueue.applyPatch t p).retryCount = t.retryCount := by
  unfold TaskQueue.applyPatch
  cases p.result <;> cases p.error <;> rfl

/-- Patching result or error fields leaves maxRetries untouched. -/
theorem applyPatch_maxRetries (t : Task) (p : TaskQueue.Patch) :
    (TaskQueue.applyPatch t p).maxRetries = t.maxRetries := by
  unfold TaskQueue.applyPatch
  cases p.result <;> cases p.error <;> rfl

/-- Patching result or error fields leaves the id untouched. -/
theorem applyPatch_id (t : Task) (p : TaskQueue.Patch) :
    (TaskQueue.applyPatch t p).id = t.id := by
  unfold TaskQueue.applyPatch
  cases p.result <;> cases p.error <;> rfl

/-- Searching by id commutes with a map that preserves the id column. -/
theorem find?_map_key {f : Row → Row} (hf : ∀ r, (f r).idCol = r.idCol)
    (rows : List Row) (id : Nat) :
    (rows.map f).find? (fun r => r.idCol = id) =
      (rows.find? (fun r => r.idCol = id)).map f := by
  induction rows with
  | nil => rfl
  | cons a rest ih =>
    simp only [List.map_cons, List.find?]
    rw [hf a]
    by_cases h : a.idCol = id
    · simp [h]
    · simp [h, ih]

/-- Unfolding of getTask on a hit: the first row with the id column equal to
the requested id carries the returned payload. -/
theorem getTask_eq_some {st : QueueState} {id : Nat} {t : Task}
    (h : TaskQueue.getTask st id = some t) :
    ∃ r0, st.rows.find? (fun r => r.idCol = id) = some r0 ∧
      r0.payload = t ∧ r0.idCol = id := by
  unfold TaskQueue.getTask at h
  obtain ⟨r0, hr0, hpay⟩ := Option.map_eq_some'.mp h
  exact ⟨r0, hr0, hpay, by simpa using List.find?_some hr0⟩

/-- The id columns of a setRow image coincide with the originals. -/
theorem setRow_key (id : Nat) (t : Task) (s : TStatus) (r : Row) :
    ((fun r => if r.idCol = id then { r with payload := t, statusCol := s } else r) r).idCol
      = r.idCol := by
  by_cases h : r.idCol = id <;> simp [h]

/-- Reading back a task right after setRow wrote it. -/
theorem getTask_setRow {st : QueueState} {id : Nat} {t0 : Task} (t : Task) (s : TStatus)
    (h : TaskQueue.getTask st id = some t0) :
    TaskQueue.getTask { st with rows := TaskQueue.setRow st.rows id t s } id = some t := by
  obtain ⟨r0, hr0, _, hid⟩ := getTask_eq_some h
  unfold TaskQueue.getTask TaskQueue.setRow
  rw [find?_map_key (setRow_key id t s) st.rows id, hr0]
  simp [hid]

/-- Shape of a successful updateStatus: the stored task has the requested
status and keeps id, retryCount and maxRetries of the loaded task. -/
theorem updateStatus_shape {st : QueueState} {id : Nat} {t : Task}
    (status : TStatus) (p : TaskQueue.Patch) (now : Nat)
    (h : TaskQueue.getTask st id = some t) :
    ∃ t', TaskQueue.updateStatus st id status p now =
        Except.ok { st with rows := TaskQueue.setRow st.rows id t' status } ∧
      t'.status = status ∧ t'.retryCount = t.retryCount ∧
      t'.maxRetries = t.maxRetries ∧ t'.id = t.id := by
  unfold TaskQueue.updateStatus
  rw [h]
  refine ⟨_, rfl, ?_, ?_, ?_, ?_⟩
  · rw [applyPatch_status]; split_ifs <;> rfl
  · rw [applyPatch_retryCount]; split_ifs <;> rfl
  · rw [applyPatch_maxRetries]; split_ifs <;> rfl
  · rw [applyPatch_id]; split_ifs <;> rfl

/-- Storage.put of a dead-letter entry makes the entry present. -/
theorem mem_dlqPut (l : List DeadLetterEntry) (e : DeadLetterEntry) :
    e ∈ TaskQueue.dlqPut l e := by
  unfold TaskQueue.dlqPut
  split
  · next h =>
    obtain ⟨x, hx, hxk⟩ := List.any_eq_true.mp h
    exact List.mem_map.mpr ⟨x, hx, by simp [of_decide_eq_true hxk]⟩
  · exact List.mem_append_right _ (List.mem_singleton.mpr rfl)

/-- Tasks returned by getPending come from rows whose status column is
pending. -/
theorem mem_getPending {st : QueueState} {limit : Nat} {t : Task}
    (h : t ∈ TaskQueue.getPending st limit) :
    ∃ r ∈ st.rows, r.payload = t ∧ r.statusCol = TStatus.pending := by
  unfold TaskQueue.getPending at h
  obtain ⟨r, hr, hpay⟩ := List.mem_map.mp h
  have hr' : r ∈ (st.rows.filter fun r => r.statusCol = TStatus.pending).insertionSort
      TaskQueue.rowOrd := List.take_subset _ _ hr
  have hr'' : r ∈ st.rows.filter (fun r => r.statusCol = TStatus.pending) :=
    (List.perm_insertionSort _ _).subset hr'
  have hm := List.mem_filter.mp hr''
  exact ⟨r, hm.1, hpay, by simpa using hm.2⟩

/-- Scanning a list with no idle subagent claims nothing. -/
theorem claimFirstIdle_eq_none {tid : Nat} {l : List SubagentInfo}
    (h : ∀ s ∈ l, s.status ≠ SStatus.idle) :
    SubagentDeployer.claimFirstIdle tid l = none := by
  induction l with
  | nil => rfl
  | cons a rest ih =>
    unfold SubagentDeployer.claimFirstIdle
    rw [if_neg (h a (List.mem_cons_self a rest))]
    rw [ih (fun s hs => h s (List.mem_cons_of_mem a hs))]

/-- The scan claims the first idle subagent in iteration order. -/
theorem claimFirstIdle_first {tid : Nat} (pre post : List SubagentInfo) (s : SubagentInfo)
    (hpre : ∀ x ∈ pre, x.status ≠ SStatus.idle) (hs : s.status = SStatus.idle) :
    SubagentDeployer.claimFirstIdle tid (pre ++ s :: post) =
      some ({ s with status := SStatus.active, currentTask := some tid },
        pre ++ { s with status := SStatus.active, currentTask := some tid } :: post) := by
  induction pre with
  | nil => simp [SubagentDeployer.claimFirstIdle, hs]
  | cons a rest ih =>
    simp only [List.cons_append]
    unfold SubagentDeployer.claimFirstIdle
    rw [if_neg (hpre a (List.mem_cons_self a rest))]
    rw [ih (fun x hx => hpre x (List.mem_cons_of_mem a hx))]

/-- Subagents that are not idle survive the claiming scan untouched. -/
theorem claimFirstIdle_preserves {tid : Nat} {l l' : List SubagentInfo} {a : SubagentInfo}
    (h : SubagentDeployer.claimFirstIdle tid l = some (a, l')) :
    ∀ x ∈ l, x.status ≠ SStatus.idle → x ∈ l' := by
  induction l generalizing l' with
  | nil => simp [SubagentDeployer.claimFirstIdle] at h
  | cons b rest ih =>
    intro x hx hxs
    unfold SubagentDeployer.claimFirstIdle at h
    by_cases hb : b.status = SStatus.idle
    · rw [if_pos hb] at h
      simp only [Option.some.injEq, Prod.mk.injEq] at h
      rcases List.mem_cons.mp hx with hxb | hxr
      · exact absurd (hxb ▸ hb) hxs
      · rw [← h.2]
        exact List.mem_cons_of_mem _ hxr
    · rw [if_neg hb] at h
      cases hcl : SubagentDeployer.claimFirstIdle tid rest with
      | none => rw [hcl] at h; exact absurd h (by simp)
      | some p =>
        obtain ⟨a', rest'⟩ := p
        rw [hcl] at h
        simp only [Option.some.injEq, Prod.mk.injEq] at h
        rcases List.mem_cons.mp hx with hxb | hxr
        · rw [← h.2, hxb]
          exact List.mem_cons_self _ _
        · rw [← h.2]
          exact List.mem_cons_of_mem _ (ih (h.1 ▸ hcl) x hxr hxs)

/-- The dispatch loop dispatches at most as many tasks as it was given. -/
theorem tickLoop_length (m : Metrics) (cap : Int) (now : Nat)
    (l : List Task) (dep : DeployerState) :
    (MasterControlAgent.tickLoop m cap now l dep).1.length ≤ l.length := by
  induction l generalizing dep with
  | nil => simp [MasterControlAgent.tickLoop]
  | cons t rest ih =>
    unfold MasterControlAgent.tickLoop
    cases hc : MasterControlAgent.canProcessTask m cap t with
    | false =>
      simp only [Bool.false_eq_true, if_false]
      exact le_trans (ih dep) (by simp)
    | true =>
      simp only [if_true]
      cases hn : MasterControlAgent.needsSubagent t with
      | false =>
        simp only [Bool.false_eq_true, if_false, List.length_cons]
        exact Nat.succ_le_succ (ih dep)
      | true =>
        simp only [if_true]
        cases halloc : SubagentDeployer.allocate dep t now with
        | ok p =>
          simp only [List.length_cons]
          exact Nat.succ_le_succ (ih p.2)
        | error e => simp

/-- With the capacity check failing, the dispatch loop dispatches nothing. -/
theorem tickLoop_skip_all (m : Metrics) (cap : Int) (now : Nat)
    (l : List Task) (dep : DeployerState)
    (h : cap ≤ m.tasksActive) :
    MasterControlAgent.tickLoop m cap now l dep = ([], dep) := by
  induction l with
  | nil => rfl
  | cons t rest ih =>
    unfold MasterControlAgent.tickLoop
    have hc : MasterControlAgent.canProcessTask m cap t = false := by
      unfold MasterControlAgent.canProcessTask
      rw [if_pos h]
    rw [hc]
    simpa using ih

/-
  Claim theorems.
-/

/-- C9: areDependenciesSatisfied returns true exactly when every id of the
dependency list (absent list read as empty) resolves to an existing task
whose status is completed; in particular an absent or empty list yields true
and an unresolved id yields false. -/
theorem areDependenciesSatisfied_iff (st : QueueState) (t : Task) :
    TaskQueue.areDependenciesSatisfied st t = true ↔
      ∀ d ∈ t.dependencies.getD [], ∃ dt, TaskQueue.getTask st d = some dt ∧
        dt.status = TStatus.completed := by
  cases hdep : t.dependencies with
  | none => simp [TaskQueue.areDependenciesSatisfied, hdep]
  | some deps =>
    simp only [TaskQueue.areDependenciesSatisfied, hdep, Option.getD_some]
    by_cases hlen : deps.length = 0
    · have hnil : deps = [] := List.length_eq_zero.mp hlen
      subst hnil
      simp
    · rw [if_neg hlen, List.all_eq_true]
      constructor
      · intro h d hd
        have hh := h d hd
        cases hdt : TaskQueue.getTask st d with
        | none => rw [hdt] at hh; exact absurd hh (by simp)
        | some dt =>
          rw [hdt] at hh
          exact ⟨dt, rfl, by simpa using hh⟩
      · intro h d hd
        obtain ⟨dt, hdt, hst⟩ := h d hd
        rw [hdt]
        simpa using hst

/-- C8 counterexample: the specification c8Spec has maxRetries = -1 < 0 and
priority 0 outside [1,10], yet enqueue accepts it: a row is inserted and the
stored task is pending with the invalid values kept. -/
theorem enqueue_accepts_invalid_spec :
    c8Spec.maxRetries = some (-1) ∧ (c8Spec.priority < 1 ∨ 10 < c8Spec.priority) ∧
    (TaskQueue.enqueue emptyQueue c8Spec 5).2.rows.length = 1 ∧
    (TaskQueue.enqueue emptyQueue c8Spec 5).1.status = TStatus.pending ∧
    (TaskQueue.enqueue emptyQueue c8Spec 5).1.maxRetries = -1 ∧
    (TaskQueue.enqueue emptyQueue c8Spec 5).1.priority = 0 := by decide

/-- C8 amended: enqueue validates nothing and accepts every specification,
always inserting exactly one row; it assigns the fresh id (distinct from all
stored ids), sets status pending, createdAt now and retryCount 0, and
replaces an absent or zero maxRetries by 3 while keeping any other value,
negative ones included. -/
theorem enqueue_no_validation (st : QueueState) (spec : TaskSpec) (now : Nat)
    (hfresh : ∀ r ∈ st.rows, r.idCol < st.nextId) :
    (TaskQueue.enqueue st spec now).2.rows.length = st.rows.length + 1 ∧
    (TaskQueue.enqueue st spec now).1.id = st.nextId ∧
    (TaskQueue.enqueue st spec now).1.status = TStatus.pending ∧
    (TaskQueue.enqueue st spec now).1.createdAt = now ∧
    (TaskQueue.enqueue st spec now).1.retryCount = 0 ∧
    (spec.maxRetries = none ∨ spec.maxRetries = some 0 →
      (TaskQueue.enqueue st spec now).1.maxRetries = 3) ∧
    (∀ v, spec.maxRetries = some v → v ≠ 0 →
      (TaskQueue.enqueue st spec now).1.maxRetries = v) ∧
    (∀ r ∈ st.rows, r.idCol ≠ (TaskQueue.enqueue st spec now).1.id) := by
  refine ⟨by simp [TaskQueue.enqueue], rfl, rfl, rfl, rfl, ?_, ?_, ?_⟩
  · rintro (h | h) <;> simp [TaskQueue.enqueue, jsOrDefault, h]
  · intro v hv hv0
    simp [TaskQueue.enqueue, jsOrDefault, hv, hv0]
  · intro r hr
    exact Nat.ne_of_lt (hfresh r hr)

/-- C8 witness: applying the amended theorem to the invalid specification,
whose explicit maxRetries of -1 is stored unchanged. -/
theorem enqueue_no_validation_witness :
    (TaskQueue.enqueue emptyQueue c8Spec 5).1.maxRetries = -1 :=
  (enqueue_no_validation emptyQueue c8Spec 5 (by decide)).2.2.2.2.2.2.1 (-1)
    (by decide) (by decide)

/-- C10: every specification with an explicit maxRetries of 0 is stored with
maxRetries = 3 (the falsy-or defaulting), so three consecutive failures each
leave the task pending with retryCount 1, 2, 3 and no dead letter, and the
fourth failure dead-letters it. -/
theorem enqueue_zero_maxRetries_defaults :
    (∀ (st : QueueState) (spec : TaskSpec) (now : Nat), spec.maxRetries = some 0 →
        (TaskQueue.enqueue st spec now).1.maxRetries = 3) ∧
    ((TaskQueue.getTask c10St1 0).map (fun u => (u.status, u.retryCount)) =
        some (TStatus.pending, 1)) ∧
    ((TaskQueue.getTask c10St2 0).map (fun u => (u.status, u.retryCount)) =
        some (TStatus.pending, 2)) ∧
    ((TaskQueue.getTask c10St3 0).map (fun u => (u.status, u.retryCount)) =
        some (TStatus.pending, 3)) ∧
    c10St3.dlq = [] ∧
    ((TaskQueue.getTask c10St4 0).map (·.status) = some TStatus.failed) ∧
    c10St4.dlq.length = 1 := by
  refine ⟨?_, by decide, by decide, by decide, by decide, by decide, by decide⟩
  intro st spec now h
  simp [TaskQueue.enqueue, jsOrDefault, h]

/-- C10 witness: the zero-maxRetries specification of the scenario is stored
with maxRetries 3. -/
theorem enqueue_zero_maxRetries_defaults_witness :
    (TaskQueue.enqueue emptyQueue c10Spec 100).1.maxRetries = 3 :=
  enqueue_zero_maxRetries_defaults.1 emptyQueue c10Spec 100 (by decide)

/-- C2 counterexample: with tasksActive = 9 and maxConcurrentTasks = 10 the
remaining capacity is 1, yet the tick dispatches all 10 pending tasks: the
per-tick take from the pending queue is not bounded by the remaining
capacity. -/
theorem tick_dispatch_exceeds_remaining_capacity :
    c2M.tasksActive = 9 ∧
    (MasterControlAgent.processAutonomousTasks c2St c2M 10 emptyDeployer 300).1.length = 10 ∧
    ¬ (((MasterControlAgent.processAutonomousTasks c2St c2M 10 emptyDeployer
          300).1.length : Int) ≤ 10 - c2M.tasksActive) := by decide

/-- C2 amended: on a tick, when tasksActive has reached maxConcurrentTasks no
task is dispatched, and the number of dispatched tasks never exceeds
maxConcurrentTasks (the limit passed to getPending); the bound is the full
cap, not the remaining capacity. -/
theorem tick_dispatch_cap :
    (∀ (qst : QueueState) (m : Metrics) (cap : Nat) (dep : DeployerState) (now : Nat),
        (cap : Int) ≤ m.tasksActive →
        (MasterControlAgent.processAutonomousTasks qst m cap dep now).1 = []) ∧
    (∀ (qst : QueueState) (m : Metrics) (cap : Nat) (dep : DeployerState) (now : Nat),
        (MasterControlAgent.processAutonomousTasks qst m cap dep now).1.length ≤ cap) := by
  constructor
  · intro qst m cap dep now h
    unfold MasterControlAgent.processAutonomousTasks
    rw [tickLoop_skip_all _ _ _ _ _ h]
  · intro qst m cap dep now
    refine le_trans (tickLoop_length _ _ _ _ _) ?_
    unfold TaskQueue.getPending
    rw [List.length_map]
    exact List.length_take_le _ _

/-- C2 witness: with tasksActive = 100 far above the cap of 10, the tick over
the ten-task queue dispatches nothing. -/
theorem tick_dispatch_cap_witness :
    (MasterControlAgent.processAutonomousTasks c2St
        { tasksCompleted := 0, tasksFailed := 0, tasksActive := 100,
          subagentsActive := 0, lastHealthCheck := 0 } 10 emptyDeployer 300).1 = [] :=
  tick_dispatch_cap.1 c2St
    { tasksCompleted := 0, tasksFailed := 0, tasksActive := 100,
      subagentsActive := 0, lastHealthCheck := 0 } 10 emptyDeployer 300 (by decide)

/-- C7: the tick dispatches task 1 although its dependency (task 0) is still
pending and areDependenciesSatisfied is false for it: the scheduler's
canProcessTask never consults the dependency check, so a dependency-blocked
task is selected for dispatch. -/
theorem tick_dispatches_dependency_blocked_task :
    1 ∈ (MasterControlAgent.processAutonomousTasks c7St c7M 10 emptyDeployer 200).1 ∧
    (TaskQueue.getTask c7St 1).map (TaskQueue.areDependenciesSatisfied c7St) = some false ∧
    (TaskQueue.getTask c7St 0).map (·.status) = some TStatus.pending := by decide

/-- C6 counterexample: an idle subagent whose heartbeat is older than the
timeout is marked error by healthCheck, unlike the claim's exclusion of idle
subagents. -/
theorem healthCheck_marks_stale_idle_error :
    c6Idle.status = SStatus.idle ∧
    (SubagentDeployer.healthCheck c6Dep 300001).activeSubagents.map (·.status) =
      [SStatus.error] := by decide

/-- C6 amended: healthCheck marks a subagent error exactly when now minus
lastHeartbeat exceeds the 5-minute timeout, regardless of its status (idle
included); a subsequent heartbeat on an errored subagent updates
lastHeartbeat and restores active while keeping its current task (no
re-allocation). -/
theorem healthCheck_timeout_and_heartbeat :
    (∀ (st : DeployerState) (now : Nat) (s : SubagentInfo), s ∈ st.activeSubagents →
        (SubagentDeployer.healthTimeout < now - s.lastHeartbeat →
          { s with status := SStatus.error } ∈
            (SubagentDeployer.healthCheck st now).activeSubagents) ∧
        (¬ SubagentDeployer.healthTimeout < now - s.lastHeartbeat →
          s ∈ (SubagentDeployer.healthCheck st now).activeSubagents)) ∧
    (∀ (st : DeployerState) (now : Nat) (s : SubagentInfo),
        s ∈ (SubagentDeployer.healthCheck st now).activeSubagents →
        s.status = SStatus.error ∨ now - s.lastHeartbeat ≤ SubagentDeployer.healthTimeout) ∧
    (∀ (st : DeployerState) (id : Nat) (now : Nat) (s : SubagentInfo),
        s ∈ st.activeSubagents → s.id = id → s.status = SStatus.error →
        { s with lastHeartbeat := now, status := SStatus.active } ∈
          (SubagentDeployer.heartbeat st id now).activeSubagents) ∧
    ((SubagentDeployer.healthCheck c6Dep2 300001).activeSubagents.map (·.status) =
        [SStatus.error]) ∧
    ((SubagentDeployer.heartbeat c6DepErr 1 300002).activeSubagents =
        [{ c6Active with lastHeartbeat := 300002, status := SStatus.active }]) := by
  refine ⟨?_, ?_, ?_, by decide, by decide⟩
  · intro st now s hs
    constructor
    · intro hstale
      exact List.mem_map.mpr ⟨s, hs, by simp [hstale]⟩
    · intro hfresh
      exact List.mem_map.mpr ⟨s, hs, by simp [hfresh]⟩
  · intro st now s hs
    obtain ⟨x, hx, hxe⟩ := List.mem_map.mp hs
    by_cases hc : SubagentDeployer.healthTimeout < now - x.lastHeartbeat
    · left
      rw [← hxe]
      simp [hc]
    · right
      rw [if_neg hc] at hxe
      rw [← hxe]
      exact Nat.le_of_not_lt hc
  · intro st id now s hs hid hstat
    exact List.mem_map.mpr ⟨s, hs, by simp [hid, hstat]⟩

/-- C6 witness: a heartbeat on the concrete errored subagent restores it to
active with its current task intact. -/
theorem healthCheck_timeout_and_heartbeat_witness :
    ({ c6Err with lastHeartbeat := 300002, status := SStatus.active } : SubagentInfo) ∈
      (SubagentDeployer.heartbeat c6DepErr 1 300002).activeSubagents :=
  healthCheck_timeout_and_heartbeat.2.2.1 c6DepErr 1 300002 c6Err (by decide)
    (by decide) (by decide)

/-- C5: allocate throws the capacity error (changing nothing) when no
subagent is idle and the count equals maxSubagents; it claims exactly the
first idle subagent (status active, currentTask set) when one exists; it
creates a fresh worker when none is idle and the count is below the cap;
subagents that are not idle are never re-claimed (no double allocation); and
from the empty deployer with cap 50, 50 allocations succeed, the 51st
throws, and one release of subagent 0 lets the next allocate claim it. -/
theorem allocate_capacity :
    (∀ (st : DeployerState) (t : Task) (now : Nat),
        (∀ s ∈ st.activeSubagents, s.status ≠ SStatus.idle) →
        st.activeSubagents.length = st.maxSubagents →
        SubagentDeployer.allocate st t now =
          Except.error "No available subagents and at capacity") ∧
    (∀ (pre post : List SubagentInfo) (s : SubagentInfo) (st : DeployerState)
        (t : Task) (now : Nat),
        st.activeSubagents = pre ++ s :: post →
        (∀ x ∈ pre, x.status ≠ SStatus.idle) → s.status = SStatus.idle →
        SubagentDeployer.allocate st t now =
          Except.ok ({ s with status := SStatus.active, currentTask := some t.id },
            { st with activeSubagents :=
                pre ++ { s with status := SStatus.active, currentTask := some t.id } :: post })) ∧
    (∀ (st : DeployerState) (t : Task) (now : Nat),
        (∀ s ∈ st.activeSubagents, s.status ≠ SStatus.idle) →
        st.activeSubagents.length < st.maxSubagents →
        SubagentDeployer.allocate st t now = Except.ok
          (SubagentDeployer.create st
            { type := SType.worker, name := "worker-" ++ toString now } now)) ∧
    (∀ (st : DeployerState) (t : Task) (now : Nat) (a : SubagentInfo)
        (st' : DeployerState),
        SubagentDeployer.allocate st t now = Except.ok (a, st') →
        ∀ x ∈ st.activeSubagents, x.status ≠ SStatus.idle → x ∈ st'.activeSubagents) ∧
    ((allocRepeat c5Task 7 50 emptyDeployer).map (fun st => st.activeSubagents.length) =
        some 50) ∧
    allocRepeat c5Task 7 51 emptyDeployer = none ∧
    ((allocRepeat c5Task 7 50 emptyDeployer).map (fun st =>
        (SubagentDeployer.allocate (SubagentDeployer.release st 0) c5Task 8).toOption.map
          (fun p => p.1.id)) = some (some 0)) := by
  refine ⟨?_, ?_, ?_, ?_, by decide, by decide, by decide⟩
  · intro st t now h1 h2
    unfold SubagentDeployer.allocate
    rw [claimFirstIdle_eq_none h1]
    rw [if_neg (by rw [h2]; exact lt_irrefl _)]
  · intro pre post s st t now hsplit hpre hs
    unfold SubagentDeployer.allocate
    rw [hsplit, claimFirstIdle_first pre post s hpre hs]
  · intro st t now h1 h2
    unfold SubagentDeployer.allocate
    rw [claimFirstIdle_eq_none h1, if_pos h2]
  · intro st t now a st' halloc x hx hxs
    unfold SubagentDeployer.allocate at halloc
    cases hcl : SubagentDeployer.claimFirstIdle t.id st.activeSubagents with
    | some p =>
      obtain ⟨a', l'⟩ := p
      rw [hcl] at halloc
      simp only [Except.ok.injEq, Prod.mk.injEq] at halloc
      have hl' : st'.activeSubagents = l' := by rw [← halloc.2]
      rw [hl']
      exact claimFirstIdle_preserves hcl x hx hxs
    | none =>
      rw [hcl] at halloc
      by_cases hlen : st.activeSubagents.length < st.maxSubagents
      · rw [if_pos hlen] at halloc
        simp only [Except.ok.injEq, Prod.mk.injEq, SubagentDeployer.create] at halloc
        rw [← halloc.2]
        exact List.mem_append_left _ hx
      · rw [if_neg hlen] at halloc
        exact absurd halloc (by simp)

/-- C5 witness: a saturated deployer (one active subagent, cap one) rejects
allocation with the capacity error. -/
theorem allocate_capacity_witness :
    SubagentDeployer.allocate c5Full c5Task 9 =
      Except.error "No available subagents and at capacity" :=
  allocate_capacity.1 c5Full c5Task 9 (by decide) (by decide)

/-- C3: getPending returns at most limit tasks; on a well-formed queue every
returned task is pending and consecutive returned tasks are ordered by
priority descending with createdAt ascending on ties; concretely the
priority-9 task wins over the priority-3 task in either enqueue order, and
two equal-priority tasks come back in enqueue order (FIFO). -/
theorem getPending_priority_order :
    (∀ (st : QueueState) (limit : Nat), (TaskQueue.getPending st limit).length ≤ limit) ∧
    (∀ (st : QueueState) (limit : Nat), (∀ r ∈ st.rows, WFrow r) →
        (∀ u ∈ TaskQueue.getPending st limit, u.status = TStatus.pending) ∧
        (TaskQueue.getPending st limit).Pairwise (fun a b =>
          b.priority < a.priority ∨
            (a.priority = b.priority ∧ a.createdAt ≤ b.createdAt))) ∧
    (TaskQueue.getPending c3AB 1).map (·.priority) = [9] ∧
    (TaskQueue.getPending c3BA 1).map (·.priority) = [9] ∧
    (TaskQueue.getPending c3XY 2).map (·.id) = [0, 1] := by
  refine ⟨?_, ?_, by decide, by decide, by decide⟩
  · intro st limit
    unfold TaskQueue.getPending
    rw [List.length_map]
    exact List.length_take_le _ _
  · intro st limit hwf
    constructor
    · intro u hu
      obtain ⟨r, hr, hpay, hstat⟩ := mem_getPending hu
      rw [← hpay, ← (hwf r hr).2.1]
      exact hstat
    · have hsorted : ((st.rows.filter fun r =>
          r.statusCol = TStatus.pending).insertionSort TaskQueue.rowOrd).Pairwise
          TaskQueue.rowOrd := List.sorted_insertionSort _ _
      have htake := hsorted.sublist (List.take_sublist limit _)
      unfold TaskQueue.getPending
      rw [List.pairwise_map]
      refine List.Pairwise.imp_of_mem ?_ htake
      intro a b ha hb hab
      have ha' : a ∈ st.rows := (List.mem_filter.mp
        ((List.perm_insertionSort _ _).subset (List.take_subset _ _ ha))).1
      have hb' : b ∈ st.rows := (List.mem_filter.mp
        ((List.perm_insertionSort _ _).subset (List.take_subset _ _ hb))).1
      have hwa := hwf a ha'
      have hwb := hwf b hb'
      unfold TaskQueue.rowOrd TaskQueue.rowLE at hab
      simp only [Bool.or_eq_true, Bool.and_eq_true, decide_eq_true_eq] at hab
      rcases hab with h1 | ⟨h1, h2⟩
      · left
        rw [← hwa.2.2.1, ← hwb.2.2.1]
        exact h1
      · right
        refine ⟨?_, ?_⟩
        · rw [← hwa.2.2.1, ← hwb.2.2.1]
          exact h1
        · rw [← hwa.2.2.2, ← hwb.2.2.2]
          exact h2

/-- C3 witness: the ordering property evaluated on the concrete two-task
queue of the FIFO scenario. -/
theorem getPending_priority_order_witness :
    (TaskQueue.getPending c3XY 2).Pairwise (fun a b =>
      b.priority < a.priority ∨ (a.priority = b.priority ∧ a.createdAt ≤ b.createdAt)) :=
  (getPending_priority_order.2.1 c3XY 2 (by decide)).2

/-- C4 counterexample: an oracle failure during executeCommand does change
the task: starting from retryCount 0, the task ends with retryCount 1 (the
failure consumed a retry), unlike the claim that a classification failure
leaves the status untouched and the retry count unincremented. -/
theorem oracle_failure_consumes_retry :
    ((TaskQueue.getTask c4St 0).map (fun u => u.retryCount) = some 0) ∧
    ((TaskQueue.getTask (MasterControlAgent.executeCommand c4St 0
        (Except.error "oracle unavailable") (fun _ => Except.ok "ok") 11) 0).map
      (fun u => (u.status, u.retryCount, u.startedAt)) =
      some (TStatus.pending, 1, some 11)) := by decide

/-- Reduction of executeCommand on a failing oracle once the status update
succeeded: the run ends in TaskQueue.fail on the updated state. -/
theorem executeCommand_oracle_error {st st1 : QueueState} {id : Nat} (e : String)
    (h : MasterControlAgent.Decision → Except String String) (now : Nat)
    (hupd : TaskQueue.updateStatus st id TStatus.in_progress {} now = Except.ok st1) :
    MasterControlAgent.executeCommand st id (Except.error e) h now =
      TaskQueue.fail st1 id e now := by
  unfold MasterControlAgent.executeCommand
  rw [hupd]

/-- C4 amended: executeCommand funnels an oracle failure into the same path
as a handler failure — TaskQueue.fail — so a classification failure consumes
the retry budget: with remaining budget, the task is marked in_progress and
then re-queued pending with retryCount incremented and the oracle error
recorded. -/
theorem oracle_failure_routed_to_fail :
    (∀ (st : QueueState) (id : Nat) (e : String)
        (h : MasterControlAgent.Decision → Except String String)
        (d : MasterControlAgent.Decision) (now : Nat),
        MasterControlAgent.executeCommand st id (Except.error e) h now =
          MasterControlAgent.executeCommand st id (Except.ok d)
            (fun _ => Except.error e) now) ∧
    (∀ (st : QueueState) (id : Nat) (t : Task) (e : String)
        (h : MasterControlAgent.Decision → Except String String) (now : Nat),
        TaskQueue.getTask st id = some t → t.retryCount < t.maxRetries →
        ∃ t', TaskQueue.getTask
            (MasterControlAgent.executeCommand st id (Except.error e) h now) id =
              some t' ∧
          t'.retryCount = t.retryCount + 1 ∧ t'.status = TStatus.pending ∧
          t'.error = some e) := by
  constructor
  · intro st id e h d now
    unfold MasterControlAgent.executeCommand
    cases TaskQueue.updateStatus st id TStatus.in_progress {} now <;> rfl
  · intro st id t e h now hget hrc
    obtain ⟨t1, hupd, _, ht1rc, ht1mr, _⟩ :=
      updateStatus_shape TStatus.in_progress {} now hget
    rw [executeCommand_oracle_error e h now hupd]
    have hget1 : TaskQueue.getTask
        { st with rows := TaskQueue.setRow st.rows id t1 TStatus.in_progress } id =
          some t1 := getTask_setRow t1 TStatus.in_progress hget
    unfold TaskQueue.fail
    rw [hget1]
    dsimp only
    rw [if_pos (by rw [ht1rc, ht1mr]; exact hrc)]
    refine ⟨_, getTask_setRow _ TStatus.pending hget1, ?_, rfl, rfl⟩
    show t1.retryCount + 1 = t.retryCount + 1
    rw [ht1rc]

/-- C4 witness: the amended theorem applied to the concrete one-task queue
and a failing oracle. -/
theorem oracle_failure_routed_to_fail_witness :
    ∃ t', TaskQueue.getTask (MasterControlAgent.executeCommand c4St 0
        (Except.error "oracle down") (fun _ => Except.ok "ok") 11) 0 = some t' ∧
      t'.retryCount = c4Task.retryCount + 1 ∧ t'.status = TStatus.pending ∧
      t'.error = some "oracle down" :=
  oracle_failure_routed_to_fail.2 c4St 0 c4Task "oracle down"
    (fun _ => Except.ok "ok") 11 (by decide) (by decide)

/-- C1: on a well-formed queue, fail with remaining budget re-queues the task
pending with retryCount incremented by one and the error recorded; fail with
exhausted budget marks it failed, writes a dead-letter entry with the failure
reason, and the task is absent from every subsequent getPending; concretely,
with maxRetries 2, failures one and two leave it pending at retryCount 1 and
2, failure three makes it failed with the dead-letter entry present and
getPending empty forever. -/
theorem fail_retry_then_deadletter :
    (∀ (st : QueueState) (id : Nat) (t : Task) (e : String) (now : Nat),
      WF st → TaskQueue.getTask st id = some t →
      (t.retryCount < t.maxRetries →
        TaskQueue.getTask (TaskQueue.fail st id e now) id =
          some { t with retryCount := t.retryCount + 1,
                        status := TStatus.pending, error := some e }) ∧
      (¬ t.retryCount < t.maxRetries →
        (∃ t', TaskQueue.getTask (TaskQueue.fail st id e now) id = some t' ∧
            t'.status = TStatus.failed) ∧
        (∃ dl ∈ (TaskQueue.fail st id e now).dlq, dl.taskId = id ∧ dl.error = e) ∧
        (∀ (limit : Nat), ∀ u ∈ TaskQueue.getPending (TaskQueue.fail st id e now) limit,
            u.id ≠ id))) ∧
    ((TaskQueue.getTask c1St1 0).map (fun u => (u.status, u.retryCount)) =
        some (TStatus.pending, 1)) ∧
    ((TaskQueue.getTask c1St2 0).map (fun u => (u.status, u.retryCount)) =
        some (TStatus.pending, 2)) ∧
    ((TaskQueue.getTask c1St3 0).map (·.status) = some TStatus.failed) ∧
    (c1St3.dlq.map (fun dl => (dl.taskId, dl.error)) = [(0, "e3")]) ∧
    (∀ (limit : Nat), TaskQueue.getPending c1St3 limit = []) := by
  refine ⟨?_, by decide, by decide, by decide, by decide, ?_⟩
  · intro st id t e now hwf hget
    constructor
    · intro hrc
      unfold TaskQueue.fail
      rw [hget]
      dsimp only
      rw [if_pos hrc]
      exact getTask_setRow _ TStatus.pending hget
    · intro hrc
      unfold TaskQueue.fail
      rw [hget]
      dsimp only
      rw [if_neg hrc]
      obtain ⟨t1, hupd, ht1s, _, _, _⟩ :=
        updateStatus_shape TStatus.failed { error := some e } now hget
      rw [hupd]
      refine ⟨⟨t1, ?_, ht1s⟩, ?_, ?_⟩
      · have := getTask_setRow t1 TStatus.failed hget
        simpa [TaskQueue.moveToDLQ, TaskQueue.getTask] using this
      · refine ⟨⟨t.id, t, e, now⟩, mem_dlqPut _ _, ?_, rfl⟩
        obtain ⟨r0, hr0, hpay, hid⟩ := getTask_eq_some hget
        have hwfr : WFrow r0 := hwf.1 r0 (List.mem_of_find?_eq_some hr0)
        show t.id = id
        rw [← hpay, ← hwfr.1]
        exact hid
      · intro limit u hu
        obtain ⟨r, hrmem, hpay, hstat⟩ := mem_getPending hu
        have hr' : r ∈ TaskQueue.setRow st.rows id t1 TStatus.failed := by
          simpa [TaskQueue.moveToDLQ] using hrmem
        obtain ⟨r0, hr0mem, hr0eq⟩ := List.mem_map.mp hr'
        by_cases hcase : r0.idCol = id
        · rw [← hr0eq] at hstat
          simp [hcase] at hstat
        · have hwfr0 : WFrow r0 := hwf.1 r0 hr0mem
          rw [← hr0eq] at hpay
          rw [if_neg hcase] at hpay
          intro hcontra
          apply hcase
          rw [hwfr0.1, hpay, hcontra]
  · intro limit
    have hfil : c1St3.rows.filter (fun r => r.statusCol = TStatus.pending) = [] := by
      decide
    unfold TaskQueue.getPending
    rw [hfil]
    simp [List.insertionSort]

/-- C1 witness: the first failure of the concrete maxRetries-2 task re-queues
it pending with retryCount 1 and the error recorded. -/
theorem fail_retry_then_deadletter_witness :
    TaskQueue.getTask (TaskQueue.fail c1St0 0 "e1" 101) 0 =
      some { c1Task with retryCount := c1Task.retryCount + 1,
                         status := TStatus.pending, error := some "e1" } :=
  (fail_retry_then_deadletter.1 c1St0 0 c1Task "e1" 101 (by decide) (by decide)).1
    (by decide)

end MCA
